import Mathlib

/-!
# Verification of the lightbus bus-client runtime against its specification

This file contains a shallow embedding, in Lean 4, of the parts of the
lightbus source relevant to the checked properties:

* `lightbus/message.py`   — the `ResultMessage` value object,
* `lightbus/schema/schema.py` — the schema store (`Schema.get_api_schema`,
  `get_event_schema`, `get_rpc_schema`, `get_event_or_rpc_schema`,
  `validate_parameters`, `validate_response`, `_parameter_names`),
* `lightbus/bus.py`       — `BusClient._validate`, `BusClient.fire_event`,
  `BusClient.call_rpc_local`, `BusClient._consume_rpcs_with_transport`,
  `BusClient.call_rpc_remote` (as an event trace), the per-transport
  event-consumer loop of `listen_for_events`, and the
  `_register_listener` context manager.

Python dictionaries are modelled as association lists with first-match
lookup (dictionaries have unique keys, which lookup-first semantics
preserves), Python values as an inductive JSON-like type with Python
truthiness, and raised exceptions as `Except` errors.  Effects (transport
sends, plugin hooks, consumer advances) are modelled as explicit traces or
result lists.
-/

namespace Lightbus

/-- A JSON-like Python value, as stored in the schema pools and message
kwargs.  `null` models Python `None`. -/
inductive JVal where
  | null
  | bool (b : Bool)
  | num (n : Int)
  | str (s : String)
  | arr (xs : List JVal)
  | obj (fields : List (String × JVal))

/-- Python truthiness (`bool(v)`) for the values of `JVal`: `None`, `False`,
`0`, the empty string, the empty list and the empty dict are falsy. -/
def pyTruthy : JVal → Bool
  | .null => false
  | .bool b => b
  | .num n => n != 0
  | .str s => s != ""
  | .arr xs => !xs.isEmpty
  | .obj fields => !fields.isEmpty

/-- A value that can appear as the `result` payload of a `ResultMessage`
before serialization: either a plain (JSON-like) value, or a raised
exception object carrying its message (`str(e)`) and its formatted
traceback (`''.join(traceback.format_exception(...))`). -/
inductive RVal where
  | val (v : JVal)
  | exc (msg : String) (traceStr : String)

/-- Whether the payload is an exception object (`isinstance(result, BaseException)`). -/
def RVal.isExc : RVal → Bool
  | .val _ => false
  | .exc _ _ => true

/-- A value appearing in the metadata dict of a `ResultMessage`
(`rpc_id` is a string, `error` a bool, `trace` a string or `None`). -/
inductive MVal where
  | null
  | bool (b : Bool)
  | str (s : String)

/-- Truthiness of a metadata value, used where Python branches on the
stored `error` value. -/
def MVal.truthy : MVal → Bool
  | .null => false
  | .bool b => b
  | .str s => s ≠ ""

/-- `lightbus/message.py` `ResultMessage`: fields as stored on the object.
The `error` field is modelled as the truth value Python would use when
branching on it. -/
structure ResultMessage where
  rpc_id : String
  result : RVal
  error : Bool
  trace : Option String

/-- The `ResultMessage.__init__` constructor (`lightbus/message.py`):
if `result` is an exception the stored result is `str(result)`, `error`
is forced to `True` and `trace` is the formatted traceback; otherwise the
three fields are stored as passed.  In Python `error` defaults to `False`
and `trace` to `None`; callers of this model pass them explicitly. -/
def ResultMessage.make (result : RVal) (rpc_id : String) (error : Bool)
    (trace : Option String) : ResultMessage :=
  match result with
  | .exc msg traceStr =>
      { rpc_id := rpc_id, result := .val (.str msg), error := true, trace := some traceStr }
  | r => { rpc_id := rpc_id, result := r, error := error, trace := trace }

/-- `Option String → MVal`: how the stored `trace` (a string or `None`)
appears in the metadata dict. -/
def traceToMVal : Option String → MVal
  | none => .null
  | some s => .str s

/-- `ResultMessage.get_metadata`: the dict `{'rpc_id': ..., 'error': ...}`,
with the `'trace'` key included only when `error` is truthy. -/
def ResultMessage.get_metadata (m : ResultMessage) : List (String × MVal) :=
  [("rpc_id", .str m.rpc_id), ("error", .bool m.error)]
    ++ (if m.error then [("trace", traceToMVal m.trace)] else [])

/-- `ResultMessage.get_kwargs`: the dict `{'result': self.result}`. -/
def ResultMessage.get_kwargs (m : ResultMessage) : List (String × RVal) :=
  [("result", m.result)]

/-- `ResultMessage.from_dict(metadata, kwargs)`:
`cls(**metadata, result=kwargs.get('result'))`.  A metadata dict without
an `'rpc_id'` key (or with a non-string one) would be a Python
`TypeError`, modelled as `none`.  An absent `'error'` key takes the
constructor default `False`; a present one contributes its truth value.
An absent or `None` `'trace'` key yields the constructor default `None`;
a non-string, non-`None` trace never arises from `get_metadata` and is
modelled as `None`.  `kwargs.get('result')` yields `None` when absent. -/
def ResultMessage.from_dict (metadata : List (String × MVal))
    (kwargs : List (String × RVal)) : Option ResultMessage :=
  match List.lookup "rpc_id" metadata with
  | some (.str rid) =>
      let error : Bool :=
        match List.lookup "error" metadata with
        | some v => v.truthy
        | none => false
      let trace : Option String :=
        match List.lookup "trace" metadata with
        | some (.str s) => some s
        | _ => none
      let result : RVal := (List.lookup "result" kwargs).getD (.val .null)
      some (ResultMessage.make result rid error trace)
  | _ => none

/-- Python exceptions raised by the modelled code paths. -/
inductive PyErr where
  | SchemaNotFound
  | KeyError
  | TypeError
  | ValidationError
  | InvalidName
  | UnknownApi
  | EventNotFound
  | InvalidEventArguments
  | Cancelled
  | SuddenDeath
  deriving DecidableEq

/-- `dict.get(k)`: the value under `k`, or `None` when absent. -/
def dictGet (d : List (String × JVal)) (k : String) : JVal :=
  (List.lookup k d).getD .null

/-- `dict.get(k)` where the key may itself be Python `None` (no pool key
is ever `None`, so that lookup is always absent). -/
def dictGetO (d : List (String × JVal)) (k : Option String) : JVal :=
  match k with
  | some s => dictGet d s
  | none => .null

/-- Python `a or b`: `a` when truthy, else `b`. -/
def pyOr (a b : JVal) : JVal :=
  if pyTruthy a then a else b

/-- `v[k]` on a Python value: field of a dict, else `KeyError` when the
key is absent, `TypeError` when `v` is not subscriptable by a string. -/
def jIndex (v : JVal) (k : String) : Except PyErr JVal :=
  match v with
  | .obj fields =>
      match List.lookup k fields with
      | some x => .ok x
      | none => .error .KeyError
  | _ => .error .TypeError

/-- `lightbus/schema/schema.py` `Schema`: the two schema pools.  The
transport handle, TTL and human-readable flag play no part in lookups. -/
structure Schema where
  local_schemas : List (String × JVal)
  remote_schemas : List (String × JVal)

/-- `Schema.__contains__`: key membership in either pool. -/
def Schema.containsApi (s : Schema) (item : Option String) : Bool :=
  match item with
  | some k => (List.lookup k s.local_schemas).isSome || (List.lookup k s.remote_schemas).isSome
  | none => false

/-- `Schema.get_api_schema`:
`api_schema = self.local_schemas.get(api_name) or self.remote_schemas.get(api_name)`,
then `if not api_schema: raise SchemaNotFound`.  Note both steps use
Python truthiness, not key presence.  The name is `Option String` because
`_validate` may pass `None` through for result messages. -/
def Schema.get_api_schema (s : Schema) (api_name : Option String) : Except PyErr JVal :=
  let api_schema := pyOr (dictGetO s.local_schemas api_name) (dictGetO s.remote_schemas api_name)
  if pyTruthy api_schema then .ok api_schema else .error .SchemaNotFound

/-- `Schema.get_event_schema`: index the API schema with `['events']`
(uncaught `KeyError`/`TypeError` if malformed), then look the event name
up in it; only a `KeyError` from that second subscript becomes
`SchemaNotFound`. -/
def Schema.get_event_schema (s : Schema) (api_name event_name : Option String) :
    Except PyErr JVal :=
  match s.get_api_schema api_name with
  | .error e => .error e
  | .ok api_schema =>
      match jIndex api_schema "events" with
      | .error e => .error e
      | .ok (.obj fields) =>
          match event_name.bind (fun n => List.lookup n fields) with
          | some x => .ok x
          | none => .error .SchemaNotFound
      | .ok _ => .error .TypeError

/-- `Schema.get_rpc_schema`: as `get_event_schema` but under `['rpcs']`. -/
def Schema.get_rpc_schema (s : Schema) (api_name rpc_name : Option String) :
    Except PyErr JVal :=
  match s.get_api_schema api_name with
  | .error e => .error e
  | .ok api_schema =>
      match jIndex api_schema "rpcs" with
      | .error e => .error e
      | .ok (.obj fields) =>
          match rpc_name.bind (fun n => List.lookup n fields) with
          | some x => .ok x
          | none => .error .SchemaNotFound
      | .ok _ => .error .TypeError

/-- `Schema.get_event_or_rpc_schema`: try the event schema, swallowing
only `SchemaNotFound`; then the RPC schema likewise; then raise
`SchemaNotFound`. -/
def Schema.get_event_or_rpc_schema (s : Schema) (api_name name : Option String) :
    Except PyErr JVal :=
  match s.get_event_schema api_name name with
  | .ok v => .ok v
  | .error .SchemaNotFound =>
      match s.get_rpc_schema api_name name with
      | .ok v => .ok v
      | .error .SchemaNotFound => .error .SchemaNotFound
      | .error e => .error e
  | .error e => .error e

/-- Modelled from the spec: the external `jsonschema.validate` call (the
`jsonschema` library is outside this repository).  The environment
supplies it as a total function from (value, JSON schema) to success or a
raised error. -/
structure ValidatorEnv where
  jsonschema_validate : RVal → JVal → Except PyErr Unit

/-- `Schema.validate_parameters`: fetch the event-or-RPC schema, index
`['parameters']`, and run `jsonschema.validate`. -/
def Schema.validate_parameters (env : ValidatorEnv) (s : Schema)
    (api_name name : Option String) (parameters : RVal) : Except PyErr Unit :=
  match s.get_event_or_rpc_schema api_name name with
  | .error e => .error e
  | .ok js =>
      match jIndex js "parameters" with
      | .error e => .error e
      | .ok p => env.jsonschema_validate parameters p

/-- `Schema.validate_response`: fetch the RPC schema, index `['response']`,
and run `jsonschema.validate`. -/
def Schema.validate_response (env : ValidatorEnv) (s : Schema)
    (api_name rpc_name : Option String) (response : RVal) : Except PyErr Unit :=
  match s.get_rpc_schema api_name rpc_name with
  | .error e => .error e
  | .ok js =>
      match jIndex js "response" with
      | .error e => .error e
      | .ok p => env.jsonschema_validate response p

end Lightbus

namespace Lightbus

/-- C9: for every `ResultMessage` built from a non-exception result such
that `error` is true or `trace` is `None`, serializing to
`(metadata, kwargs)` and re-parsing with `from_dict` reproduces the
message (all four fields). -/
theorem resultMessage_roundtrip (rid : String) (r : RVal) (e : Bool)
    (t : Option String) (hr : r.isExc = false) (het : e = true ∨ t = none) :
    ResultMessage.from_dict (ResultMessage.make r rid e t).get_metadata
      (ResultMessage.make r rid e t).get_kwargs
      = some (ResultMessage.make r rid e t) := by
  cases r with
  | exc m ts => simp [RVal.isExc] at hr
  | val v =>
    cases e with
    | true =>
      cases t <;>
        simp [ResultMessage.make, ResultMessage.get_metadata, ResultMessage.get_kwargs,
          ResultMessage.from_dict, List.lookup, traceToMVal, MVal.truthy]
    | false =>
      rcases het with h | h
      · exact absurd h (by simp)
      · subst h
        simp [ResultMessage.make, ResultMessage.get_metadata, ResultMessage.get_kwargs,
          ResultMessage.from_dict, List.lookup, traceToMVal, MVal.truthy]

/-- Witness for C9 at a concrete non-error message. -/
theorem resultMessage_roundtrip_witness :
    ResultMessage.from_dict
        (ResultMessage.make (.val (.str "ok")) "id1" false none).get_metadata
        (ResultMessage.make (.val (.str "ok")) "id1" false none).get_kwargs
      = some (ResultMessage.make (.val (.str "ok")) "id1" false none) :=
  resultMessage_roundtrip "id1" (.val (.str "ok")) false none rfl (Or.inr rfl)

end Lightbus

namespace Lightbus

/-- C8 counterexample: the API `"a"` is present in the local pool, but its
schema value is the empty JSON object, which is falsy in Python; the
`or`-chain in `get_api_schema` therefore skips it and the final truthiness
check raises `SchemaNotFound` instead of returning the local entry. -/
theorem get_api_schema_falsy_local_counterexample :
    List.lookup "a" (Schema.mk [("a", JVal.obj [])] []).local_schemas
        = some (JVal.obj [])
    ∧ (Schema.mk [("a", JVal.obj [])] []).get_api_schema (some "a")
        = .error .SchemaNotFound :=
  ⟨rfl, rfl⟩

/-- C8 (amended): `get_api_schema` returns the local pool's schema when it
is present *and truthy*, otherwise the remote pool's schema when that is
present and truthy, and raises `SchemaNotFound` otherwise — a present but
falsy schema value (such as the empty JSON object) counts as absent. -/
theorem get_api_schema_truthy_lookup (s : Schema) (api : String) :
    (∀ v, List.lookup api s.local_schemas = some v → pyTruthy v = true →
        s.get_api_schema (some api) = .ok v)
    ∧ (pyTruthy (dictGet s.local_schemas api) = false →
        ∀ w, List.lookup api s.remote_schemas = some w → pyTruthy w = true →
          s.get_api_schema (some api) = .ok w)
    ∧ (pyTruthy (dictGet s.local_schemas api) = false →
        pyTruthy (dictGet s.remote_schemas api) = false →
          s.get_api_schema (some api) = .error .SchemaNotFound) := by
  refine ⟨?_, ?_, ?_⟩
  · intro v hv htv
    simp [Schema.get_api_schema, dictGetO, dictGet, pyOr, hv, htv]
  · intro hl w hw htw
    simp only [Schema.get_api_schema, dictGetO, pyOr, hl, if_false, Bool.false_eq_true]
    simp [dictGet, hw, htw]
  · intro hl hr
    simp [Schema.get_api_schema, dictGetO, pyOr, hl, hr]

/-- Witness for C8 (amended), first conjunct: a truthy local schema is
returned from the local pool. -/
theorem get_api_schema_truthy_lookup_witness :
    (Schema.mk [("a", JVal.obj [("events", JVal.obj [])])] []).get_api_schema (some "a")
      = .ok (JVal.obj [("events", JVal.obj [])]) :=
  (get_api_schema_truthy_lookup (Schema.mk [("a", JVal.obj [("events", JVal.obj [])])] []) "a").1
    (JVal.obj [("events", JVal.obj [])]) rfl rfl

/-- C10: for a well-formed API schema (a dict with `events` and `rpcs`
sub-dicts), `get_event_or_rpc_schema` returns the event entry whenever one
exists under the name (even when an RPC of the same name also exists),
returns the RPC entry only when no event of that name exists, and raises
`SchemaNotFound` exactly when neither exists. -/
theorem get_event_or_rpc_schema_event_priority
    (s : Schema) (api name : String) (fields evs rpcs : List (String × JVal))
    (hapi : s.get_api_schema (some api) = .ok (.obj fields))
    (hev : List.lookup "events" fields = some (.obj evs))
    (hrp : List.lookup "rpcs" fields = some (.obj rpcs)) :
    (∀ v, List.lookup name evs = some v →
        s.get_event_or_rpc_schema (some api) (some name) = .ok v)
    ∧ (List.lookup name evs = none → ∀ w, List.lookup name rpcs = some w →
        s.get_event_or_rpc_schema (some api) (some name) = .ok w)
    ∧ (List.lookup name evs = none → List.lookup name rpcs = none →
        s.get_event_or_rpc_schema (some api) (some name) = .error .SchemaNotFound) := by
  refine ⟨?_, ?_, ?_⟩
  · intro v hv
    simp [Schema.get_event_or_rpc_schema, Schema.get_event_schema, jIndex, hapi, hev, hv]
  · intro hne w hw
    simp [Schema.get_event_or_rpc_schema, Schema.get_event_schema, Schema.get_rpc_schema,
      jIndex, hapi, hev, hrp, hne, hw]
  · intro hne hnr
    simp [Schema.get_event_or_rpc_schema, Schema.get_event_schema, Schema.get_rpc_schema,
      jIndex, hapi, hev, hrp, hne, hnr]

/-- Witness for C10: a schema defining both an event and an RPC named
`"n"`; the event's entry is returned. -/
theorem get_event_or_rpc_schema_event_priority_witness :
    (Schema.mk
        [("a", JVal.obj [("events", JVal.obj [("n", JVal.str "ev")]),
                         ("rpcs", JVal.obj [("n", JVal.str "rp")])])] []
      ).get_event_or_rpc_schema (some "a") (some "n") = .ok (JVal.str "ev") :=
  (get_event_or_rpc_schema_event_priority
      (Schema.mk
        [("a", JVal.obj [("events", JVal.obj [("n", JVal.str "ev")]),
                         ("rpcs", JVal.obj [("n", JVal.str "rp")])])] [])
      "a" "n"
      [("events", JVal.obj [("n", JVal.str "ev")]), ("rpcs", JVal.obj [("n", JVal.str "rp")])]
      [("n", JVal.str "ev")] [("n", JVal.str "rp")]
      rfl rfl rfl).1 (JVal.str "ev") rfl

end Lightbus

namespace Lightbus

/-- The `direction` argument of `BusClient._validate`. -/
inductive Direction where
  | incoming
  | outgoing
  deriving DecidableEq

/-- Modelled from the spec: the per-API validation configuration returned
by `config.api(api_name)` (the `Config` class is outside `src/`): the
`validate.incoming` / `validate.outgoing` flags and `strict_validation`. -/
structure ApiValidateConfig where
  validate_incoming : Bool
  validate_outgoing : Bool
  strict_validation : Bool

/-- `getattr(api_config.validate, direction)`. -/
def dirEnabled (c : ApiValidateConfig) : Direction → Bool
  | .incoming => c.validate_incoming
  | .outgoing => c.validate_outgoing

/-- A message as dispatched on by `BusClient._validate` via `isinstance`:
`RpcMessage` and `EventMessage` carry their api and member names and
kwargs; `ResultMessage` carries neither name (they are supplied as
arguments to `_validate` instead). -/
inductive VMessage where
  | rpc (api_name procedure_name : String) (kwargs : List (String × JVal))
  | event (api_name event_name : String) (kwargs : List (String × JVal))
  | result (rpc_id : String) (result : RVal)

/-- Python `a or b` on optional strings, where `None` and the empty
string are falsy. -/
def pyOrOptStr (a b : Option String) : Option String :=
  match a with
  | some s => if s != "" then some s else b
  | none => b

/-- `getattr(message, 'api_name', api_name)` in `_validate`. -/
def VMessage.resolveApiName : VMessage → Option String → Option String
  | .rpc a _ _, _ => some a
  | .event a _ _, _ => some a
  | .result _ _, arg => arg

/-- `getattr(message, 'procedure_name', None) or getattr(message,
'event_name', procedure_name)` in `_validate`. -/
def VMessage.resolveEventOrRpcName : VMessage → Option String → Option String
  | .rpc _ p _, arg => pyOrOptStr (some p) arg
  | .event _ e _, _ => some e
  | .result _ _, arg => arg

/-- `BusClient._validate(message, direction, api_name, procedure_name)`
(`lightbus/bus.py`): resolve the api and member names, fetch the per-API
config, return early when validation is disabled for the direction, skip
(with a debug log) when not strict and no schema is present, otherwise
dispatch to `validate_parameters` (rpc/event messages) or
`validate_response` (result messages). -/
def BusClient._validate (env : ValidatorEnv) (cfg : Option String → ApiValidateConfig)
    (s : Schema) (message : VMessage) (direction : Direction)
    (api_name_arg procedure_name_arg : Option String) : Except PyErr Unit :=
  let api_name := message.resolveApiName api_name_arg
  let event_or_rpc_name := message.resolveEventOrRpcName procedure_name_arg
  let api_config := cfg api_name
  let strict_validation := api_config.strict_validation
  if !(dirEnabled api_config direction) then .ok ()
  else if !strict_validation && !(s.containsApi api_name) then .ok ()
  else
    match message with
    | .rpc _ _ kwargs => Schema.validate_parameters env s api_name event_or_rpc_name (.val (.obj kwargs))
    | .event _ _ kwargs => Schema.validate_parameters env s api_name event_or_rpc_name (.val (.obj kwargs))
    | .result _ r => Schema.validate_response env s api_name event_or_rpc_name r

/-- When an API is in neither schema pool, `get_api_schema` raises
`SchemaNotFound`. -/
theorem get_api_schema_of_not_containsApi (s : Schema) (api : String)
    (h : s.containsApi (some api) = false) :
    s.get_api_schema (some api) = .error .SchemaNotFound := by
  cases hl : List.lookup api s.local_schemas with
  | some v => simp [Schema.containsApi, hl] at h
  | none =>
    cases hr : List.lookup api s.remote_schemas with
    | some w => simp [Schema.containsApi, hl, hr] at h
    | none => simp [Schema.get_api_schema, dictGetO, dictGet, pyOr, pyTruthy, hl, hr]

/-- C7: when validation is enabled for the message's direction but the
resolved API has no schema in either pool, `_validate` returns without
error when `strict_validation` is false, and raises `SchemaNotFound` when
`strict_validation` is true. -/
theorem validate_missing_schema
    (env : ValidatorEnv) (cfg : Option String → ApiValidateConfig) (s : Schema)
    (message : VMessage) (direction : Direction) (a_arg p_arg : Option String)
    (api : String)
    (hapi : message.resolveApiName a_arg = some api)
    (hdir : dirEnabled (cfg (some api)) direction = true)
    (hmiss : s.containsApi (some api) = false) :
    ((cfg (some api)).strict_validation = false →
        BusClient._validate env cfg s message direction a_arg p_arg = .ok ())
    ∧ ((cfg (some api)).strict_validation = true →
        BusClient._validate env cfg s message direction a_arg p_arg = .error .SchemaNotFound) := by
  have hschema := get_api_schema_of_not_containsApi s api hmiss
  constructor
  · intro hstrict
    cases message <;>
      simp_all [BusClient._validate, VMessage.resolveApiName]
  · intro hstrict
    cases message <;>
      simp_all [BusClient._validate, VMessage.resolveApiName, Schema.validate_parameters,
        Schema.validate_response, Schema.get_event_or_rpc_schema, Schema.get_event_schema,
        Schema.get_rpc_schema]

/-- Witness for C7 at a concrete input: strict validation, empty schema
pools, an incoming RPC message. -/
theorem validate_missing_schema_witness :
    BusClient._validate ⟨fun _ _ => Except.ok ()⟩
        (fun _ => ⟨true, true, true⟩) (Schema.mk [] [])
        (.rpc "a" "p" []) .incoming none none
      = .error .SchemaNotFound :=
  (validate_missing_schema ⟨fun _ _ => Except.ok ()⟩ (fun _ => ⟨true, true, true⟩)
      (Schema.mk [] []) (.rpc "a" "p" []) .incoming none none "a" rfl rfl rfl).2 rfl

end Lightbus

namespace Lightbus

/-- A declared parameter of an event: a plain string or a `Parameter`
object carrying its name (`lightbus/schema/schema.py`). -/
inductive EventParam where
  | str (s : String)
  | param (name : String)

/-- `_parameter_names` (`lightbus/schema/schema.py`): the set
`{p.name if isinstance(p, Parameter) else p for p in parameters}`. -/
def _parameter_names (parameters : List EventParam) : Finset String :=
  (parameters.map fun p => match p with | .str s => s | .param n => n).toFinset

/-- Modelled from the spec: an event definition on a locally registered
API (`lightbus/api.py` is not under `src/`): the declared parameter
list that `fire_event` compares kwargs against. -/
structure EventDef where
  parameters : List EventParam

/-- Modelled from the spec: a locally registered API (`lightbus/api.py` is
not under `src/`): its `meta.name` and its named events; `registry.get`
raises `UnknownApi` for an unregistered name and `api.get_event` raises
`EventNotFound` for an undefined event, both modelled as lookups below. -/
structure Api where
  name : String
  events : List (String × EventDef)

/-- `BusClient._validate_name`: an empty name or a name starting with an
underscore raises `InvalidName` (`name.startswith('_')` is expressed on
the character list so that it computes definitionally). -/
def BusClient._validate_name (name : String) : Except PyErr Unit :=
  if name = "" then .error .InvalidName
  else if name.data.head? = some '_' then .error .InvalidName
  else .ok ()

/-- `lightbus/message.py` `EventMessage`. -/
structure EventMessage where
  api_name : String
  event_name : String
  kwargs : List (String × JVal)

/-- `set(kwargs.keys())` of a kwargs dict. -/
def dictKeys (kwargs : List (String × JVal)) : Finset String :=
  (kwargs.map Prod.fst).toFinset

/-- `BusClient.fire_event(api_name, name, kwargs)` (`lightbus/bus.py`):
resolve the API in the local registry (`UnknownApi`), validate the event
name (`InvalidName`), resolve the event (`EventNotFound`), compare
`set(kwargs.keys())` with `_parameter_names(event.parameters)`
(`InvalidEventArguments`), build the `EventMessage`, validate it outgoing,
then send it on the event transport (the plugin hooks around the send do
not affect the result).  Returns the message handed to
`event_transport.send_event`. -/
def BusClient.fire_event (env : ValidatorEnv) (cfg : Option String → ApiValidateConfig)
    (s : Schema) (registry : List (String × Api)) (api_name name : String)
    (kwargs : List (String × JVal)) : Except PyErr EventMessage :=
  match List.lookup api_name registry with
  | none => .error .UnknownApi
  | some api =>
    match BusClient._validate_name name with
    | .error e => .error e
    | .ok _ =>
      match List.lookup name api.events with
      | none => .error .EventNotFound
      | some event =>
        if dictKeys kwargs = _parameter_names event.parameters then
          match BusClient._validate env cfg s (.event api.name name kwargs) .outgoing none none with
          | .error e => .error e
          | .ok _ => .ok ⟨api.name, name, kwargs⟩
        else .error .InvalidEventArguments

/-- The messages passed to `event_transport.send_event` during a
`fire_event` call: the single built message on success, nothing when any
error is raised (every raise in `fire_event` occurs before the send). -/
def BusClient.fire_event_sent (env : ValidatorEnv) (cfg : Option String → ApiValidateConfig)
    (s : Schema) (registry : List (String × Api)) (api_name name : String)
    (kwargs : List (String × JVal)) : List EventMessage :=
  match BusClient.fire_event env cfg s registry api_name name kwargs with
  | .ok m => [m]
  | .error _ => []

end Lightbus

namespace Lightbus

/-- C5: for an API in the local registry with an event of the given valid
name, `fire_event` sends the event exactly when the kwarg key set equals
the event's declared parameter-name set (assuming outgoing validation of
the built message passes); when the sets differ it raises
`InvalidEventArguments` and nothing reaches the transport. -/
theorem fire_event_exact_kwargs
    (env : ValidatorEnv) (cfg : Option String → ApiValidateConfig) (s : Schema)
    (registry : List (String × Api)) (api_name name : String)
    (kwargs : List (String × JVal)) (api : Api) (event : EventDef)
    (hreg : List.lookup api_name registry = some api)
    (hname : BusClient._validate_name name = .ok ())
    (hev : List.lookup name api.events = some event)
    (hval : BusClient._validate env cfg s (.event api.name name kwargs) .outgoing none none
        = .ok ()) :
    (BusClient.fire_event env cfg s registry api_name name kwargs
        = .ok ⟨api.name, name, kwargs⟩
      ↔ dictKeys kwargs = _parameter_names event.parameters)
    ∧ (dictKeys kwargs ≠ _parameter_names event.parameters →
        BusClient.fire_event env cfg s registry api_name name kwargs
            = .error .InvalidEventArguments
        ∧ BusClient.fire_event_sent env cfg s registry api_name name kwargs = []) := by
  constructor
  · constructor
    · intro h
      by_contra hne
      simp [BusClient.fire_event, hreg, hname, hev, hne] at h
    · intro heq
      simp [BusClient.fire_event, hreg, hname, hev, heq, hval]
  · intro hne
    constructor
    · simp [BusClient.fire_event, hreg, hname, hev, hne]
    · simp [BusClient.fire_event_sent, BusClient.fire_event, hreg, hname, hev, hne]

/-- Witness for C5: firing `"a"."e"` with exactly the declared parameter
`"x"` sends the message. -/
theorem fire_event_exact_kwargs_witness :
    BusClient.fire_event ⟨fun _ _ => Except.ok ()⟩ (fun _ => ⟨false, false, false⟩)
        (Schema.mk [] []) [("a", ⟨"a", [("e", ⟨[.str "x"]⟩)]⟩)] "a" "e"
        [("x", JVal.str "v")]
      = .ok ⟨"a", "e", [("x", JVal.str "v")]⟩ :=
  (fire_event_exact_kwargs ⟨fun _ _ => Except.ok ()⟩ (fun _ => ⟨false, false, false⟩)
      (Schema.mk [] []) [("a", ⟨"a", [("e", ⟨[.str "x"]⟩)]⟩)] "a" "e"
      [("x", JVal.str "v")] ⟨"a", [("e", ⟨[.str "x"]⟩)]⟩ ⟨[.str "x"]⟩
      rfl rfl rfl rfl).1.mpr (by decide)

end Lightbus

namespace Lightbus

/-- `lightbus/message.py` `RpcMessage` (the fields the consume loop uses;
`return_path` is only threaded to the result transport). -/
structure RpcMsg where
  rpc_id : String
  api_name : String
  procedure_name : String
  kwargs : List (String × JVal)

/-- The behaviour of one invocation of the local procedure
(`api.call(name, kwargs)`, awaited when the result is awaitable): it
returns a value, is cancelled, raises the test-only
`SuddenDeathException`, or raises an ordinary exception with message
`str(e)` and formatted traceback. -/
inductive CallOutcome where
  | value (v : JVal)
  | cancelled
  | suddenDeath
  | raised (msg traceStr : String)

/-- `BusClient.call_rpc_local` (`lightbus/bus.py`): validate the name,
invoke the procedure; `CancelledError` and `SuddenDeathException`
re-raise; any other exception object is *returned* as the result; a
normal value is returned. -/
def BusClient.call_rpc_local (name : String) (outcome : CallOutcome) : Except PyErr RVal :=
  match BusClient._validate_name name with
  | .error e => .error e
  | .ok _ =>
    match outcome with
    | .value v => .ok (.val v)
    | .cancelled => .error .Cancelled
    | .suddenDeath => .error .SuddenDeath
    | .raised msg traceStr => .ok (.exc msg traceStr)

/-- `BusClient._consume_rpcs_with_transport` (`lightbus/bus.py`), run on a
batch of consumed RPC messages (each paired with the behaviour of its
local procedure).  Per message: validate incoming, fire
`before_rpc_execution`, run `call_rpc_local`; `SuddenDeathException` is
caught and the message is skipped with no result; any other raised error
propagates out of the loop; otherwise the `ResultMessage` is built (its
constructor turning a returned exception into `error=True`),
`after_rpc_execution` fires, the result is validated outgoing and sent on
the result transport.  Returns the list of result messages sent. -/
def BusClient._consume_rpcs_with_transport (env : ValidatorEnv)
    (cfg : Option String → ApiValidateConfig) (s : Schema) :
    List (RpcMsg × CallOutcome) → Except PyErr (List ResultMessage)
  | [] => .ok []
  | (m, outcome) :: rest =>
    match BusClient._validate env cfg s (.rpc m.api_name m.procedure_name m.kwargs)
        .incoming none none with
    | .error e => .error e
    | .ok _ =>
      match BusClient.call_rpc_local m.procedure_name outcome with
      | .error .SuddenDeath =>
          BusClient._consume_rpcs_with_transport env cfg s rest
      | .error e => .error e
      | .ok result =>
        let result_message := ResultMessage.make result m.rpc_id false none
        match BusClient._validate env cfg s (.result m.rpc_id result_message.result)
            .outgoing (some m.api_name) (some m.procedure_name) with
        | .error e => .error e
        | .ok _ =>
          match BusClient._consume_rpcs_with_transport env cfg s rest with
          | .error e => .error e
          | .ok sent => .ok (result_message :: sent)

end Lightbus

namespace Lightbus

/-- C6: with a valid procedure name and passing validation, an ordinary
exception raised by the invoked procedure is returned by
`call_rpc_local`, converted into a `ResultMessage` with `error = true`
carrying the stringified exception and its trace, and sent on the result
transport; `CancelledError` and `SuddenDeathException` instead propagate
out of `call_rpc_local`; and a message whose handler raises
`SuddenDeathException` produces no result message at all. -/
theorem consume_rpcs_exception_handling
    (env : ValidatorEnv) (cfg : Option String → ApiValidateConfig) (s : Schema)
    (m : RpcMsg) (msg traceStr : String)
    (hname : BusClient._validate_name m.procedure_name = .ok ())
    (hv1 : BusClient._validate env cfg s (.rpc m.api_name m.procedure_name m.kwargs)
        .incoming none none = .ok ())
    (hv2 : BusClient._validate env cfg s (.result m.rpc_id (.val (.str msg)))
        .outgoing (some m.api_name) (some m.procedure_name) = .ok ()) :
    BusClient.call_rpc_local m.procedure_name (.raised msg traceStr) = .ok (.exc msg traceStr)
    ∧ BusClient._consume_rpcs_with_transport env cfg s [(m, .raised msg traceStr)]
        = .ok [⟨m.rpc_id, .val (.str msg), true, some traceStr⟩]
    ∧ BusClient.call_rpc_local m.procedure_name .cancelled = .error .Cancelled
    ∧ BusClient.call_rpc_local m.procedure_name .suddenDeath = .error .SuddenDeath
    ∧ BusClient._consume_rpcs_with_transport env cfg s [(m, .suddenDeath)] = .ok [] := by
  refine ⟨?_, ?_, ?_, ?_, ?_⟩ <;>
    simp [BusClient.call_rpc_local, BusClient._consume_rpcs_with_transport,
      ResultMessage.make, hname, hv1, hv2]

/-- Witness for C6 at a concrete consumed message whose handler raises an
ordinary exception (validation disabled in the config). -/
theorem consume_rpcs_exception_handling_witness :
    BusClient._consume_rpcs_with_transport ⟨fun _ _ => Except.ok ()⟩
        (fun _ => ⟨false, false, false⟩) (Schema.mk [] [])
        [(⟨"id1", "a", "p", []⟩, .raised "boom" "tb")]
      = .ok [⟨"id1", .val (.str "boom"), true, some "tb"⟩] :=
  (consume_rpcs_exception_handling ⟨fun _ _ => Except.ok ()⟩
      (fun _ => ⟨false, false, false⟩) (Schema.mk [] [])
      ⟨"id1", "a", "p", []⟩ "boom" "tb" rfl rfl rfl).2.1

end Lightbus

namespace Lightbus

/-- One observable step of `BusClient.call_rpc_remote` (`lightbus/bus.py`),
listed in the program order of the source: resolve transports and build
the message, ask the result transport for the return path, validate the
name, validate the outgoing message, create the `asyncio.gather` over
`receive_result` and `call_rpc` (which schedules both operations — first
`receive_result`, then `call_rpc`), await `plugin_hook('before_rpc_call')`,
await the composite future under the timeout, and on delivery await
`plugin_hook('after_rpc_call')` before the `error` flag is checked. -/
inductive RpcEvent where
  | get_return_path
  | validate_name
  | validate_outgoing
  | start_receive_result
  | start_call_rpc
  | hook_before_rpc_call
  | await_composite
  | hook_after_rpc_call
  | validate_incoming
  deriving DecidableEq

/-- How the composite wait ends: a timeout, or a delivered result message
whose `error` flag is as given. -/
inductive RemoteOutcome where
  | timeout
  | delivered (error : Bool)

/-- What `call_rpc_remote` does after the wait: return the result, raise
`LightbusTimeout`, or raise `LightbusServerError`. -/
inductive RemoteResult where
  | ok
  | timeoutError
  | serverError
  deriving DecidableEq

/-- `BusClient.call_rpc_remote` as the trace of its observable steps plus
its final disposition, as a function of how the composite wait ends.
Failures of the early validations would cut the trace before any hook;
the claims condition on a delivered or timed-out wait, which presupposes
reaching it. -/
def call_rpc_remote_run (outcome : RemoteOutcome) : List RpcEvent × RemoteResult :=
  let pre : List RpcEvent :=
    [.get_return_path, .validate_name, .validate_outgoing,
     .start_receive_result, .start_call_rpc, .hook_before_rpc_call, .await_composite]
  match outcome with
  | .timeout => (pre, .timeoutError)
  | .delivered err =>
      if err then (pre ++ [.hook_after_rpc_call], .serverError)
      else (pre ++ [.hook_after_rpc_call, .validate_incoming], .ok)

/-- Whether a step is one of the two RPC-call plugin hooks. -/
def isRpcCallHook : RpcEvent → Bool
  | .hook_before_rpc_call => true
  | .hook_after_rpc_call => true
  | _ => false

/-- The subsequence of RPC-call plugin hooks observed in a trace. -/
def rpcHooks (tr : List RpcEvent) : List RpcEvent :=
  tr.filter isRpcCallHook

/-- Index of the first occurrence of a step in a trace. -/
def firstIdxOf (tr : List RpcEvent) (e : RpcEvent) : Option Nat :=
  tr.findIdx? (fun x => x == e)

/-- `a` occurs in the trace, `b` occurs in the trace, and the first
occurrence of `a` is strictly before the first occurrence of `b`. -/
def strictlyBefore (tr : List RpcEvent) (a b : RpcEvent) : Bool :=
  match firstIdxOf tr a, firstIdxOf tr b with
  | some i, some j => decide (i < j)
  | _, _ => false

end Lightbus

namespace Lightbus

/-- C1 counterexample: when the delivered result has `error = true` the
code awaits `after_rpc_call` *before* checking the flag and raising
`LightbusServerError`, so both hooks are observed — not only
`before_rpc_call` as the claim states. -/
theorem after_rpc_call_on_server_error_counterexample :
    rpcHooks (call_rpc_remote_run (.delivered true)).1
        = [.hook_before_rpc_call, .hook_after_rpc_call]
    ∧ (call_rpc_remote_run (.delivered true)).2 = .serverError := by
  decide

/-- C1 (amended): on success the observed hooks are exactly
`before_rpc_call, after_rpc_call`; on timeout only `before_rpc_call`; on a
delivered result with `error = true` (surfaced as `LightbusServerError`)
both hooks are observed, because `after_rpc_call` runs on any delivered
result, before the error flag is checked. -/
theorem rpc_call_hook_sequence :
    (rpcHooks (call_rpc_remote_run (.delivered false)).1
        = [.hook_before_rpc_call, .hook_after_rpc_call]
      ∧ (call_rpc_remote_run (.delivered false)).2 = .ok)
    ∧ (rpcHooks (call_rpc_remote_run .timeout).1 = [.hook_before_rpc_call]
      ∧ (call_rpc_remote_run .timeout).2 = .timeoutError)
    ∧ (rpcHooks (call_rpc_remote_run (.delivered true)).1
        = [.hook_before_rpc_call, .hook_after_rpc_call]
      ∧ (call_rpc_remote_run (.delivered true)).2 = .serverError) := by
  decide

/-- C4 counterexample: in the trace of a successful call the
`before_rpc_call` hook does *not* precede the start of the two gathered
operations — both `receive_result` and `call_rpc` are scheduled by
`asyncio.gather` strictly before the hook is awaited. -/
theorem before_rpc_call_after_gather_counterexample :
    strictlyBefore (call_rpc_remote_run (.delivered false)).1
        .hook_before_rpc_call .start_receive_result = false
    ∧ strictlyBefore (call_rpc_remote_run (.delivered false)).1
        .start_receive_result .hook_before_rpc_call = true
    ∧ strictlyBefore (call_rpc_remote_run (.delivered false)).1
        .start_call_rpc .hook_before_rpc_call = true := by
  decide

/-- C4 (amended): for every outcome, the two concurrent operations are
started (scheduled via `asyncio.gather`, `receive_result` first) before
`before_rpc_call` is invoked, and the hook completes before the composite
result of the two operations is awaited. -/
theorem gather_precedes_hook_precedes_await (o : RemoteOutcome) :
    strictlyBefore (call_rpc_remote_run o).1 .start_receive_result .hook_before_rpc_call = true
    ∧ strictlyBefore (call_rpc_remote_run o).1 .start_call_rpc .hook_before_rpc_call = true
    ∧ strictlyBefore (call_rpc_remote_run o).1 .hook_before_rpc_call .await_composite = true := by
  cases o with
  | timeout => decide
  | delivered err => cases err <;> decide

end Lightbus

namespace Lightbus

/-- An event message yielded by the transport consumer inside
`listen_for_event_task`. -/
structure IncomingEvent where
  api_name : String
  event_name : String
  kwargs : List (String × JVal)

/-- One observable step of the per-transport consumer loop of
`listen_for_events` (`listen_for_event_task`, `lightbus/bus.py`):
the `async for` advance that yields the message, the incoming validation,
the `before_event_execution` hook, the listener invocation (called with
the api and event names positionally and the message kwargs as keyword
arguments, and awaited in the same step when the result is awaitable),
the second consumer advance (`consumer.__anext__()`, the
acknowledgement), and the `after_event_execution` hook. -/
inductive ListenEvent where
  | consumer_yield (api_name event_name : String)
  | validate_incoming (api_name event_name : String)
  | hook_before_event_execution (api_name event_name : String)
  | call_listener (api_name event_name : String) (kwargs : List (String × JVal))
  | consumer_ack (api_name event_name : String)
  | hook_after_event_execution (api_name event_name : String)

/-- The body of `listen_for_event_task`'s `async for` loop, run over the
finite sequence of messages the consumer yields, in the statement order
of the source (the log line carries no semantics and is omitted). -/
def consumeLoop : List IncomingEvent → List ListenEvent
  | [] => []
  | m :: rest =>
    .consumer_yield m.api_name m.event_name
      :: .validate_incoming m.api_name m.event_name
      :: .hook_before_event_execution m.api_name m.event_name
      :: .call_listener m.api_name m.event_name m.kwargs
      :: .consumer_ack m.api_name m.event_name
      :: .hook_after_event_execution m.api_name m.event_name
      :: consumeLoop rest

/-- `self._listeners.setdefault(key, 0); self._listeners[key] += 1` for
one key: first match incremented in place, a new key appended at the end
(dict insertion order). -/
def listenersIncr : List ((String × String) × Nat) → (String × String) →
    List ((String × String) × Nat)
  | [], k => [(k, 1)]
  | (k', n) :: rest, k =>
      if k' = k then (k', n + 1) :: rest else (k', n) :: listenersIncr rest k

/-- `self._listeners[key] -= 1; if not self._listeners[key]:
self._listeners.pop(key)` for one key (an absent key — a Python
`KeyError`, unreachable after the increments — leaves the map unchanged). -/
def listenersDecr : List ((String × String) × Nat) → (String × String) →
    List ((String × String) × Nat)
  | [], _ => []
  | (k', n) :: rest, k =>
      if k' = k then (if n - 1 = 0 then rest else (k', n - 1) :: rest)
      else (k', n) :: listenersDecr rest k

/-- The entry half of `BusClient._register_listener`: increment every
`(api_name, event_name)` pair. -/
def _register_listener_enter (L : List ((String × String) × Nat))
    (events : List (String × String)) : List ((String × String) × Nat) :=
  events.foldl listenersIncr L

/-- The code after the `yield` of `BusClient._register_listener`:
decrement every pair, removing entries whose count returns to zero. -/
def _register_listener_exit (L : List ((String × String) × Nat))
    (events : List (String × String)) : List ((String × String) × Nat) :=
  events.foldl listenersDecr L

/-- How the `with self._register_listener(events)` scope around the
consumer loop is left. -/
inductive ScopeExit where
  | normal
  | thrown

/-- The effect of `BusClient._register_listener` on the listener map, as
the generator-based context manager actually behaves: the increments run
on entry; the decrement loop stands after a bare `yield` with no
`try/finally`, so it runs only when the `with` body completes normally —
an exception or cancellation thrown into the scope propagates from the
yield point and the decrements are skipped. -/
def _register_listener_scope (L : List ((String × String) × Nat))
    (events : List (String × String)) (exitPath : ScopeExit) :
    List ((String × String) × Nat) :=
  let entered := _register_listener_enter L events
  match exitPath with
  | .normal => _register_listener_exit entered events
  | .thrown => entered

end Lightbus

namespace Lightbus

/-- C2: for every message `m` at position `i` of the consumer's yield
sequence, the trace of the loop consists of the processing of the earlier
messages (six steps each), then contiguously: the advance yielding `m`,
its incoming validation, the `before_event_execution` hook, the listener
invocation with the api and event names and the message kwargs, the
acknowledging second advance, and the `after_event_execution` hook — all
before the processing of any later message begins. -/
theorem listener_loop_message_order (msgs : List IncomingEvent) (i : Nat)
    (m : IncomingEvent) (h : msgs.get? i = some m) :
    ∃ pre : List ListenEvent, pre.length = 6 * i ∧
      consumeLoop msgs
        = pre ++ ([.consumer_yield m.api_name m.event_name,
                   .validate_incoming m.api_name m.event_name,
                   .hook_before_event_execution m.api_name m.event_name,
                   .call_listener m.api_name m.event_name m.kwargs,
                   .consumer_ack m.api_name m.event_name,
                   .hook_after_event_execution m.api_name m.event_name]
            ++ consumeLoop (msgs.drop (i + 1))) := by
  induction msgs generalizing i with
  | nil => simp at h
  | cons m' rest ih =>
    cases i with
    | zero =>
      obtain rfl : m' = m := by simpa using h
      exact ⟨[], rfl, rfl⟩
    | succ i =>
      obtain ⟨pre, hlen, heq⟩ := ih i (by simpa using h)
      refine ⟨[.consumer_yield m'.api_name m'.event_name,
               .validate_incoming m'.api_name m'.event_name,
               .hook_before_event_execution m'.api_name m'.event_name,
               .call_listener m'.api_name m'.event_name m'.kwargs,
               .consumer_ack m'.api_name m'.event_name,
               .hook_after_event_execution m'.api_name m'.event_name] ++ pre,
        by simp [hlen]; ring, ?_⟩
      simp [consumeLoop, heq]

/-- Witness for C2 at the second message of a two-message consumer run. -/
theorem listener_loop_message_order_witness :
    ∃ pre : List ListenEvent, pre.length = 6 * 1 ∧
      consumeLoop [⟨"a", "e1", []⟩, ⟨"a", "e2", []⟩]
        = pre ++ ([.consumer_yield "a" "e2",
                   .validate_incoming "a" "e2",
                   .hook_before_event_execution "a" "e2",
                   .call_listener "a" "e2" [],
                   .consumer_ack "a" "e2",
                   .hook_after_event_execution "a" "e2"]
            ++ consumeLoop (List.drop (1 + 1) [⟨"a", "e1", []⟩, ⟨"a", "e2", []⟩])) :=
  listener_loop_message_order [⟨"a", "e1", []⟩, ⟨"a", "e2", []⟩] 1 ⟨"a", "e2", []⟩ rfl

/-- C3 failing input: a listener task over the single pair `("a", "b")`
whose scope is left by cancellation.  The refcount entry survives at 1 —
the decrement after the bare `yield` never runs on the thrown path — while
a normal exit does remove it.  The claim that the decrement runs on every
exit path (including cancellation) therefore fails on the code. -/
theorem register_listener_cancellation_leak :
    _register_listener_scope [] [("a", "b")] .thrown = [(("a", "b"), 1)]
    ∧ _register_listener_scope [] [("a", "b")] .normal = [] :=
  ⟨rfl, rfl⟩

end Lightbus
